import Mathlib

/-!
Verification of the preview-engine orchestrator (job lifecycle and queueing
subsystem) against its natural-language specification.

The development shallowly embeds the TypeScript sources:

* `src/orchestrator-api/src/services/generator.ts` — the worker pipeline
  `processPreviewJob` (generate, then deploy, with PreviewStore status writes);
* `src/orchestrator-api/src/services/queue.ts` — the bull queue configuration
  (`redisConfig`) and, in the same file, the Express HTTP handlers
  (submission, status poll, list-by-user, cancel);
* `src/live-preview-engine/orchestrator-api/src/index.ts` — the
  live-preview-engine variant of the HTTP handlers (notably its unvalidated
  POST handler);
* `src/live-preview-engine/orchestrator-api/src/services/netlify.ts` —
  `deployToNetlify`.

External effects (code generation, deployment, queue introspection, the
wall clock) are passed in as explicit environment values; the Dexie-backed
PreviewStore (`db.previews`, whose module is not part of the repository
sources) is modelled as a list of records with Dexie's documented
add / partial-update / get / where-equals semantics.  Machine integers do not
occur: all counts and timestamps are naturals.
-/

namespace PreviewEngine

/-- Job status values written by the repository's code paths.  The spec's
state machine names `building`, `generating`, `deploying`, `live`, `failed`;
all five can appear in a PreviewStore record (`deploying` is written by the
older in-process pipeline in `index.ts`, the queue worker writes the other
four). -/
inductive Status where
  | building
  | generating
  | deploying
  | live
  | failed
  deriving DecidableEq, Repr

/-- One persisted preview-job record (`db.previews` row).  `prompt` and
`userId` are `Option String` because the JavaScript handlers may store
`undefined` for them; timestamps are abstract naturals. -/
structure PreviewRecord where
  id : String
  prompt : Option String
  userId : Option String
  status : Status
  liveUrl : Option String
  error : Option String
  createdAt : Nat
  updatedAt : Nat
  deriving DecidableEq, Repr

/-- A partial update, as passed to Dexie's `db.previews.update(id, changes)`:
each field is `some v` when the JavaScript object literal carries that key. -/
structure Changes where
  status : Option Status := none
  liveUrl : Option (Option String) := none
  error : Option (Option String) := none
  updatedAt : Option Nat := none
  deriving DecidableEq, Repr

/-- The PreviewStore contents: the list of rows, in insertion order. -/
abbrev Store := List PreviewRecord

/-- Apply a partial update to a single record (fields absent from the update
keep their value; the primary key is never part of an update). -/
def applyChanges (r : PreviewRecord) (c : Changes) : PreviewRecord :=
  { r with
    status := c.status.getD r.status
    liveUrl := c.liveUrl.getD r.liveUrl
    error := c.error.getD r.error
    updatedAt := c.updatedAt.getD r.updatedAt }

/-- Dexie `db.previews.update(id, changes)`: point update by primary key; a
no-op when no record has the id. -/
def dbUpdate (s : Store) (id : String) (c : Changes) : Store :=
  s.map (fun r => if r.id = id then applyChanges r c else r)

/-- Dexie `db.previews.get(id)`: point read by primary key. -/
def dbGet (s : Store) (id : String) : Option PreviewRecord :=
  s.find? (fun r => r.id == id)

/-- Dexie `db.previews.add(record)`: insert. -/
def dbAdd (s : Store) (r : PreviewRecord) : Store :=
  s ++ [r]

/-- JavaScript falsiness of an optional string: `!x` is true exactly for a
missing value or the empty string. -/
def strFalsy : Option String → Bool
  | none => true
  | some s => s == ""

/-- JavaScript `x || d` for an optional string `x` and default `d`. -/
def jsOr (v : Option String) (d : String) : String :=
  match v with
  | none => d
  | some s => if s == "" then d else s

/-! ## The worker pipeline (`processPreviewJob` in `generator.ts`)

The pipeline's two capability calls are abstracted by a `PipelineEnv`:
`genResult` is the outcome of `generateAppCode(prompt)` (an artifact path, or
a thrown error), `deployResult` the outcome of `deployToNetlify(appPath)`
(a returned URL value — possibly missing or empty — or a thrown error). -/

structure PipelineEnv where
  genResult : Except String String
  deployResult : Except String (Option String)

/-- Observable actions of one worker attempt, in program order: PreviewStore
writes, the two capability calls, and the temp-directory cleanup. -/
inductive Event where
  | dbWrite (jobId : String) (c : Changes)
  | genCall (prompt : String)
  | deployCall (path : String)
  | fsRemove (path : String)
  deriving DecidableEq, Repr

/-- Result of one `processPreviewJob` attempt: the new store, the events in
order, and the error the attempt re-threw to bull (`none` on success). -/
structure RunResult where
  store : Store
  events : List Event
  threw : Option String
  deriving Repr

/-- Error message thrown when the deployment URL is falsy
(`generator.ts` line 36). -/
def noUrlError : String := "Failed to get deployment URL from Netlify"

/-- Shallow embedding of `processPreviewJob` (`generator.ts` lines 12–66),
straight-line from the source: write status `building`; call
`generateAppCode`; on success write status `generating`; call
`deployToNetlify`; throw if the returned URL is falsy; otherwise write status
`live` with the URL and remove the temp directory.  The catch block removes
the temp directory when `appPath` is non-empty (it is still `''` when
generation itself threw), writes status `failed` with the error message, and
re-throws for the queue's retry logic. -/
def processPreviewJob (env : PipelineEnv) (store : Store) (jobId : String)
    (prompt : String) (now : Nat) : RunResult :=
  let cBuilding : Changes := { status := some .building, updatedAt := some now }
  let s1 := dbUpdate store jobId cBuilding
  match env.genResult with
  | .error msg =>
      let cFail : Changes :=
        { status := some .failed, error := some (some msg), updatedAt := some now }
      { store := dbUpdate s1 jobId cFail
        events := [.dbWrite jobId cBuilding, .genCall prompt, .dbWrite jobId cFail]
        threw := some msg }
  | .ok appPath =>
      let cGenerating : Changes := { status := some .generating, updatedAt := some now }
      let s2 := dbUpdate s1 jobId cGenerating
      let evs := [Event.dbWrite jobId cBuilding, Event.genCall prompt,
        Event.dbWrite jobId cGenerating, Event.deployCall appPath]
      match env.deployResult with
      | .error msg =>
          let cFail : Changes :=
            { status := some .failed, error := some (some msg), updatedAt := some now }
          { store := dbUpdate s2 jobId cFail
            events := evs ++ [.fsRemove appPath, .dbWrite jobId cFail]
            threw := some msg }
      | .ok url =>
          if strFalsy url then
            let cFail : Changes :=
              { status := some .failed, error := some (some noUrlError), updatedAt := some now }
            { store := dbUpdate s2 jobId cFail
              events := evs ++ [.fsRemove appPath, .dbWrite jobId cFail]
              threw := some noUrlError }
          else
            let cLive : Changes :=
              { status := some .live, liveUrl := some url, updatedAt := some now }
            { store := dbUpdate s2 jobId cLive
              events := evs ++ [.dbWrite jobId cLive, .fsRemove appPath]
              threw := none }

/-- Bull's retry loop around the worker (queue `attempts` option): run one
attempt per environment in the list; stop early on a successful attempt.
The list length is the number of attempts bull schedules (at most the
configured `attempts`). -/
def runAttempts (envs : List PipelineEnv) (store : Store) (jobId : String)
    (prompt : String) (now : Nat) : Store × List Event :=
  match envs with
  | [] => (store, [])
  | env :: rest =>
      let r := processPreviewJob env store jobId prompt now
      match r.threw with
      | none => (r.store, r.events)
      | some _ =>
          let next := runAttempts rest r.store jobId prompt (now + 1)
          (next.1, r.events ++ next.2)

/-- The sequence of status values carried by the PreviewStore writes in an
event trace, in order. -/
def statusWrites (evs : List Event) : List Status :=
  evs.filterMap (fun e =>
    match e with
    | .dbWrite _ c => c.status
    | _ => none)

/-- Position of each status in the spec's forward chain
`building → generating → deploying → live/failed`. -/
def statusRank : Status → Nat
  | .building => 0
  | .generating => 1
  | .deploying => 2
  | .live => 3
  | .failed => 3

/-- Terminal statuses per the spec (`live`, `failed`). -/
def Status.isTerminal : Status → Bool
  | .live => true
  | .failed => true
  | _ => false

/-- One step of the spec's forward-progression invariant: the rank never
decreases, and a terminal status is never followed by a non-terminal one. -/
def forwardStep (a b : Status) : Bool :=
  decide (statusRank a ≤ statusRank b) && (!a.isTerminal || b.isTerminal)

/-- A status sequence obeys the forward-progression invariant when every
adjacent pair does. -/
def forwardOnly : List Status → Bool
  | [] => true
  | [_] => true
  | a :: b :: rest => forwardStep a b && forwardOnly (b :: rest)

/-! ## Queue configuration (`queue.ts` lines 5–16) -/

structure BackoffOptions where
  type : String
  delay : Nat
  deriving DecidableEq, Repr

structure JobOptions where
  removeOnComplete : Bool
  removeOnFail : Bool
  attempts : Nat
  backoff : BackoffOptions
  deriving DecidableEq, Repr

structure RedisConfig where
  redis : String
  defaultJobOptions : JobOptions
  deriving DecidableEq, Repr

/-- Shallow embedding of the `redisConfig` literal in `queue.ts`:
`process.env.REDIS_URL` is passed in as an optional string. -/
def redisConfig (envRedisUrl : Option String) : RedisConfig :=
  { redis := jsOr envRedisUrl "redis://localhost:6379"
    defaultJobOptions :=
      { removeOnComplete := true
        removeOnFail := false
        attempts := 3
        backoff := { type := "exponential", delay := 2000 } } }

/-- Bull's documented exponential-backoff schedule for
`backoff.type = 'exponential'`: the delay before retry number `i`
(zero-based) is `delay * 2 ^ i` milliseconds. -/
def bullBackoffDelay (opts : JobOptions) (retryIndex : Nat) : Nat :=
  opts.backoff.delay * 2 ^ retryIndex

/-- Worker concurrency passed to `previewQueue.process` (`queue.ts` line 22). -/
def workerConcurrency : Nat := 2

/-! ## HTTP handlers

The queue is abstracted as the list of pending/retained job ids; aggregate
counts from `getJobCounts()` are passed in explicitly for the status
handler. -/

/-- Bull `previewQueue.add(data, { jobId })`: adding under an id that already
has an entry is a dedup no-op. -/
def queueAdd (q : List String) (id : String) : List String :=
  if q.contains id then q else q ++ [id]

/-- Request body of `POST /api/preview`: either field may be absent. -/
structure PostRequest where
  prompt : Option String
  userId : Option String
  deriving DecidableEq, Repr

/-- Response of the submission handlers (only the fields the claims need). -/
structure PostResponse where
  httpStatus : Nat
  success : Bool
  jobId : Option String
  deriving DecidableEq, Repr

/-- Shallow embedding of the orchestrator-api `POST /api/preview` handler
(`queue.ts` lines 170–204): validate that `prompt` and `userId` are truthy
(else respond 400 with no state change), then insert the initial record with
status `building` and enqueue the job under the same id. -/
def postPreviewHandler (store : Store) (queue : List String) (req : PostRequest)
    (jobId : String) (now : Nat) : Store × List String × PostResponse :=
  if strFalsy req.prompt || strFalsy req.userId then
    (store, queue, { httpStatus := 400, success := false, jobId := none })
  else
    let record : PreviewRecord :=
      { id := jobId, prompt := req.prompt, userId := req.userId
        status := .building, liveUrl := none, error := none
        createdAt := now, updatedAt := now }
    (dbAdd store record, queueAdd queue jobId,
      { httpStatus := 200, success := true, jobId := some jobId })

/-- Shallow embedding of the live-preview-engine `POST /api/preview` handler
(`index.ts` lines 58–104): no validation; `userId` defaults to
`'anonymous'` via `userId || 'anonymous'`; the record and queue entry are
created unconditionally. -/
def enginePostPreviewHandler (store : Store) (queue : List String)
    (req : PostRequest) (jobId : String) (now : Nat) :
    Store × List String × PostResponse :=
  let record : PreviewRecord :=
    { id := jobId, prompt := req.prompt, userId := some (jsOr req.userId "anonymous")
      status := .building, liveUrl := none, error := none
      createdAt := now, updatedAt := now }
  (dbAdd store record, queueAdd queue jobId,
    { httpStatus := 200, success := true, jobId := some jobId })

/-- Aggregate counts from `previewQueue.getJobCounts()`. -/
structure JobCounts where
  waiting : Nat
  active : Nat
  deriving DecidableEq, Repr

/-- Response of the status-poll handler. -/
structure StatusResponse where
  httpStatus : Nat
  success : Bool
  record : Option PreviewRecord
  queuePosition : Option Nat
  estimatedTime : Option Nat
  deriving DecidableEq, Repr

/-- Shallow embedding of `GET /api/preview/:jobId/status` (`queue.ts` lines
227–253; the engine's `GET /api/preview/:id`, `index.ts` lines 107–132, has
the same queue-position logic): 404 when no record exists; otherwise the
local `queuePosition` is `waiting + active + 1` when `getJob` finds an entry
and `null` otherwise; the response's `queuePosition` is
`queuePosition && preview.status === 'building' ? queuePosition : null` and
its `estimatedTime` is `queuePosition ? queuePosition * 30 : null`
(JavaScript truthiness: a number is falsy exactly when it is 0). -/
def getStatusHandler (store : Store) (jobInQueue : Bool) (counts : JobCounts)
    (jobId : String) : StatusResponse :=
  match dbGet store jobId with
  | none =>
      { httpStatus := 404, success := false, record := none
        queuePosition := none, estimatedTime := none }
  | some preview =>
      let queuePosition : Option Nat :=
        if jobInQueue then some (counts.waiting + counts.active + 1) else none
      let respPos : Option Nat :=
        match queuePosition with
        | some n => if n ≠ 0 ∧ preview.status = .building then some n else none
        | none => none
      let respEta : Option Nat :=
        match queuePosition with
        | some n => if n ≠ 0 then some (n * 30) else none
        | none => none
      { httpStatus := 200, success := true, record := some preview
        queuePosition := respPos, estimatedTime := respEta }

/-- Descending creation-time order on records (newest first). -/
def createdDesc (a b : PreviewRecord) : Prop :=
  b.createdAt ≤ a.createdAt

instance : DecidableRel createdDesc :=
  fun a b => inferInstanceAs (Decidable (b.createdAt ≤ a.createdAt))

instance : IsTotal PreviewRecord createdDesc :=
  ⟨fun a b => (Nat.le_total b.createdAt a.createdAt).imp id id⟩

instance : IsTrans PreviewRecord createdDesc :=
  ⟨fun _ _ _ hab hbc => Nat.le_trans hbc hab⟩

/-- Shallow embedding of `GET /api/previews/:userId` (`queue.ts` lines
265–282; identically `index.ts` lines 144–161):
`db.previews.where('userId').equals(userId).reverse().sortBy('createdAt')`.
Per Dexie's documented Collection semantics, `where/equals` filters on the
field and `reverse()` makes the in-memory `sortBy('createdAt')` sort in
descending key order. -/
def listPreviewsHandler (store : Store) (userId : String) : List PreviewRecord :=
  List.insertionSort createdDesc
    (store.filter (fun r => r.userId == some userId))

/-- Response of the cancel handler. -/
structure CancelResponse where
  httpStatus : Nat
  success : Bool
  deriving DecidableEq, Repr

/-- Shallow embedding of `DELETE /api/preview/:jobId` (`queue.ts` lines
285–311; identically `index.ts` lines 164–190): remove the queue entry when
one exists, apply the `failed`/`Cancelled by user` update to the store (a
Dexie no-op when no record has the id), and respond success — there is no
not-found check. -/
def cancelHandler (store : Store) (queue : List String) (jobId : String)
    (now : Nat) : Store × List String × CancelResponse :=
  let queue1 := queue.filter (fun id => id != jobId)
  let store1 := dbUpdate store jobId
    { status := some .failed, error := some (some "Cancelled by user")
      updatedAt := some now }
  (store1, queue1, { httpStatus := 200, success := true })

/-! ## Netlify deployment (`netlify.ts` lines 8–46) -/

/-- Environment of `deployToNetlify`: the `NETLIFY_TOKEN` variable and the
outcome of the site-creation POST (the created site's id, or an error
message). -/
structure NetlifyEnv where
  netlifyToken : Option String
  siteCreateResult : Except String String

/-- Shallow embedding of `deployToNetlify(appFolderPath, siteName)`
(`netlify.ts`): throw when the token is absent; create the site; on success
return `https://<siteName>.netlify.app` — the function never reads the
artifact directory, so the ambient filesystem is modelled as an explicit
`artifact` map that the body does not consult. -/
def deployToNetlify (env : NetlifyEnv) (artifact : String → Option String)
    (appFolderPath siteName : String) : Except String String :=
  if strFalsy env.netlifyToken then
    .error "NETLIFY_TOKEN environment variable is not set"
  else
    match env.siteCreateResult with
      | .error msg => .error ("Netlify API error: " ++ msg)
      | .ok _siteId => .ok ("https://" ++ siteName ++ ".netlify.app")

/-! ## Trace helpers -/

/-- Whether a trace contains a PreviewStore write carrying the given status. -/
def hasStatusWrite (st : Status) (evs : List Event) : Bool :=
  evs.any (fun e =>
    match e with
    | .dbWrite _ c => c.status == some st
    | _ => false)

/-- Whether a trace contains a call to the DeploymentTarget. -/
def hasDeployCall (evs : List Event) : Bool :=
  evs.any (fun e =>
    match e with
    | .deployCall _ => true
    | _ => false)

/-- Whether an event is the CodeGenerator call. -/
def isGenCall : Event → Bool
  | .genCall _ => true
  | _ => false

/-- The prefix of a trace strictly before the first CodeGenerator call. -/
def beforeFirstGenCall (evs : List Event) : List Event :=
  evs.takeWhile (fun e => !isGenCall e)

/-! ## Basic store lemmas -/

theorem applyChanges_id (r : PreviewRecord) (c : Changes) :
    (applyChanges r c).id = r.id := rfl

theorem dbGet_dbUpdate_self (s : Store) (id : String) (c : Changes) :
    dbGet (dbUpdate s id c) id = (dbGet s id).map (fun r => applyChanges r c) := by
  induction s with
  | nil => rfl
  | cons r t ih =>
      by_cases h : r.id = id
      · simp [dbUpdate, dbGet, List.find?_cons, applyChanges_id, h]
      · simp only [dbUpdate, List.map_cons] at *
        rw [if_neg h]
        simp only [dbGet, List.find?_cons] at *
        have hb : (r.id == id) = false := by
          simpa [beq_iff_eq] using h
        rw [hb]
        exact ih

/-! ## Concrete fixtures used by counterexamples and witnesses -/

/-- A freshly submitted record, as the POST handler inserts it. -/
def job1 : PreviewRecord :=
  { id := "j1", prompt := some "todo app", userId := some "u1"
    status := .building, liveUrl := none, error := none
    createdAt := 0, updatedAt := 0 }

/-- The same record after cancellation marked it failed. -/
def job1Failed : PreviewRecord :=
  { job1 with status := .failed, error := some "Cancelled by user" }

/-- A pipeline environment in which generation and deployment both succeed
with a non-empty URL. -/
def okEnv : PipelineEnv :=
  { genResult := .ok "/tmp/preview_1", deployResult := .ok (some "https://j1.netlify.app") }

/-- A pipeline environment in which generation throws. -/
def failEnv : PipelineEnv :=
  { genResult := .error "Failed to copy template after 3 attempts: EACCES"
    deployResult := .error "unreachable" }

/-- A pipeline environment in which deployment resolves to an empty URL. -/
def emptyUrlEnv : PipelineEnv :=
  { genResult := .ok "/tmp/preview_1", deployResult := .ok (some "") }

/-! ## Claim theorems -/

/-- C1 (counterexample): the persisted status does not progress only forward.
With a fresh `building` record and a generation failure, bull retries the job
(`attempts: 3`); the first attempt writes `building` then `failed`, and the
retried attempt begins by writing `building` again — a write that moves a
terminal `failed` record back to the non-terminal `building`, so the sampled
status sequence violates the forward-progression invariant. -/
theorem c1_counterexample :
    forwardOnly (.building ::
      statusWrites (runAttempts [failEnv, failEnv] [job1] "j1" "todo app" 1).2) = false := by
  decide

/-- C1 (amended): within a single worker attempt the persisted status only
moves forward through the state machine (the attempt writes `building`, then
`generating`, then `live` or `failed`); the regression arises only across
bull retry attempts, each of which starts over by writing `building`. -/
theorem c1_single_attempt_forward (env : PipelineEnv) (store : Store)
    (jobId prompt : String) (now : Nat) :
    forwardOnly (.building ::
      statusWrites (processPreviewJob env store jobId prompt now).events) = true := by
  cases hg : env.genResult with
  | error msg =>
      simp [processPreviewJob, hg, statusWrites, forwardOnly, forwardStep,
        statusRank, Status.isTerminal]
  | ok appPath =>
      cases hd : env.deployResult with
      | error msg =>
          simp [processPreviewJob, hg, hd, statusWrites, forwardOnly, forwardStep,
            statusRank, Status.isTerminal]
      | ok url =>
          by_cases hu : strFalsy url
          · simp [processPreviewJob, hg, hd, hu, statusWrites, forwardOnly,
              forwardStep, statusRank, Status.isTerminal]
          · simp [processPreviewJob, hg, hd, hu, statusWrites, forwardOnly,
              forwardStep, statusRank, Status.isTerminal]

/-- C2 (counterexample): on a fully successful run the worker invokes the
DeploymentTarget but never writes status `deploying`, and it writes
`generating` only after the CodeGenerator call (no `generating` write occurs
before the first generator call), contradicting the claimed
generating-before-generate / deploying-before-deploy ordering. -/
theorem c2_counterexample :
    hasDeployCall (processPreviewJob okEnv [job1] "j1" "todo app" 1).events = true ∧
    hasStatusWrite .deploying (processPreviewJob okEnv [job1] "j1" "todo app" 1).events = false ∧
    hasStatusWrite .generating (processPreviewJob okEnv [job1] "j1" "todo app" 1).events = true ∧
    hasStatusWrite .generating
      (beforeFirstGenCall (processPreviewJob okEnv [job1] "j1" "todo app" 1).events) = false := by
  decide

/-- C2 (amended): on the success path the worker's observable actions are
exactly: write `building`, call the CodeGenerator, write `generating`, call
the DeploymentTarget, write `live` with the returned URL, remove the
artifact.  In particular `generating` is written after generation succeeds
(not before), no `deploying` status is ever written, and `live` is written
only after a successful deployment returning a non-empty URL. -/
theorem c2_success_path_writes (env : PipelineEnv) (store : Store)
    (jobId prompt : String) (now : Nat) (appPath url : String)
    (hg : env.genResult = .ok appPath)
    (hd : env.deployResult = .ok (some url)) (hu : url ≠ "") :
    (processPreviewJob env store jobId prompt now).events =
      [.dbWrite jobId { status := some .building, updatedAt := some now },
       .genCall prompt,
       .dbWrite jobId { status := some .generating, updatedAt := some now },
       .deployCall appPath,
       .dbWrite jobId { status := some .live, liveUrl := some (some url), updatedAt := some now },
       .fsRemove appPath] ∧
    (processPreviewJob env store jobId prompt now).threw = none := by
  have hf : strFalsy (some url) = false := by
    simp [strFalsy, hu]
  simp [processPreviewJob, hg, hd, hf]

/-- C2 witness: the success-path trace at a concrete environment. -/
theorem c2_success_path_writes_witness :
    (processPreviewJob okEnv [job1] "j1" "todo app" 1).events =
      [.dbWrite "j1" { status := some .building, updatedAt := some 1 },
       .genCall "todo app",
       .dbWrite "j1" { status := some .generating, updatedAt := some 1 },
       .deployCall "/tmp/preview_1",
       .dbWrite "j1"
         { status := some .live, liveUrl := some (some "https://j1.netlify.app"), updatedAt := some 1 },
       .fsRemove "/tmp/preview_1"] ∧
    (processPreviewJob okEnv [job1] "j1" "todo app" 1).threw = none :=
  c2_success_path_writes okEnv [job1] "j1" "todo app" 1 "/tmp/preview_1"
    "https://j1.netlify.app" rfl rfl (by decide)

/-- C3 (counterexample): the final `live` write is not guarded by a check
that the record is still non-terminal.  Starting from a record already marked
`failed` (cancelled while the worker was in flight), a late successful
completion overwrites it with `live`. -/
theorem c3_counterexample :
    (dbGet [job1Failed] "j1").map (fun r => r.status) = some .failed ∧
    (dbGet (processPreviewJob okEnv [job1Failed] "j1" "todo app" 2).store "j1").map
      (fun r => r.status) = some .live := by
  decide

/-- C3 (amended): the pipeline's final `live` write is unconditional
(last-write-wins, no compare-and-set): whenever deployment succeeds with a
non-empty URL, the record's status ends up `live` regardless of its prior
value — in particular a `failed` record set by cancellation is overwritten. -/
theorem c3_live_write_unconditional (env : PipelineEnv) (store : Store)
    (jobId prompt : String) (now : Nat) (r : PreviewRecord) (appPath url : String)
    (hg : env.genResult = .ok appPath) (hd : env.deployResult = .ok (some url))
    (hu : url ≠ "") (hr : dbGet store jobId = some r) :
    (dbGet (processPreviewJob env store jobId prompt now).store jobId).map
      (fun x => x.status) = some .live := by
  have hf : strFalsy (some url) = false := by
    simp [strFalsy, hu]
  simp [processPreviewJob, hg, hd, hf, dbGet_dbUpdate_self, hr, applyChanges]

/-- C3 witness: the unconditional live write applied to a concrete cancelled
record and successful environment. -/
theorem c3_live_write_unconditional_witness :
    (dbGet (processPreviewJob okEnv [job1Failed] "j1" "todo app" 2).store "j1").map
      (fun x => x.status) = some .live :=
  c3_live_write_unconditional okEnv [job1Failed] "j1" "todo app" 2 job1Failed
    "/tmp/preview_1" "https://j1.netlify.app" rfl rfl (by decide) (by decide)

/-- C4 (counterexample): the status poll does not report
`queuePosition = waiting + active + 1` whenever a queue entry exists, and it
does not null both fields on terminal statuses.  For a `failed` record whose
queue entry is retained (`removeOnFail: false`), the response carries
`estimatedTime = 30` (non-null); and for a non-terminal `generating` record
with an active entry, `queuePosition` is null although the claim requires
`waiting + active + 1`. -/
theorem c4_counterexample :
    (getStatusHandler [job1Failed] true { waiting := 0, active := 0 } "j1").estimatedTime
      = some 30 ∧
    (getStatusHandler [job1Failed] true { waiting := 0, active := 0 } "j1").queuePosition
      = none ∧
    (getStatusHandler [{ job1 with status := .generating }] true
      { waiting := 0, active := 1 } "j1").queuePosition = none := by
  decide

/-- C4 (amended): for an existing record, the response's `queuePosition` is
`waiting + active + 1` exactly when a queue entry exists and the record's
status is `building` (null otherwise), while `estimatedTime` is
`(waiting + active + 1) * 30` exactly when a queue entry exists — regardless
of the record's status, including terminal ones whose failed entry is
retained. -/
theorem c4_status_projection (store : Store) (jobInQueue : Bool)
    (counts : JobCounts) (jobId : String) (p : PreviewRecord)
    (hr : dbGet store jobId = some p) :
    (getStatusHandler store jobInQueue counts jobId).queuePosition =
      (if jobInQueue ∧ p.status = .building
        then some (counts.waiting + counts.active + 1) else none) ∧
    (getStatusHandler store jobInQueue counts jobId).estimatedTime =
      (if jobInQueue then some ((counts.waiting + counts.active + 1) * 30) else none) := by
  cases jobInQueue with
  | false => simp [getStatusHandler, hr]
  | true =>
      by_cases hb : p.status = .building
      · simp [getStatusHandler, hr, hb]
      · simp [getStatusHandler, hr, hb]

/-- C4 witness: the projection at a concrete building record with one
waiting and one active job. -/
theorem c4_status_projection_witness :
    (getStatusHandler [job1] true { waiting := 1, active := 1 } "j1").queuePosition
      = some 3 ∧
    (getStatusHandler [job1] true { waiting := 1, active := 1 } "j1").estimatedTime
      = some 90 :=
  c4_status_projection [job1] true { waiting := 1, active := 1 } "j1" job1 (by decide)

/-- C5: when the DeploymentTarget resolves to a missing or empty URL, the
attempt throws the dedicated error, the record's terminal status is `failed`
with that error message, and no `live` status is ever written — the job is
never recorded as `live` with an unusable URL. -/
theorem c5_empty_url_fails (env : PipelineEnv) (store : Store)
    (jobId prompt : String) (now : Nat) (r : PreviewRecord) (appPath : String)
    (url : Option String)
    (hg : env.genResult = .ok appPath) (hd : env.deployResult = .ok url)
    (hu : strFalsy url = true) (hr : dbGet store jobId = some r) :
    (processPreviewJob env store jobId prompt now).threw = some noUrlError ∧
    (dbGet (processPreviewJob env store jobId prompt now).store jobId).map
      (fun x => x.status) = some .failed ∧
    (dbGet (processPreviewJob env store jobId prompt now).store jobId).map
      (fun x => x.error) = some (some noUrlError) ∧
    hasStatusWrite .live (processPreviewJob env store jobId prompt now).events = false := by
  simp [processPreviewJob, hg, hd, hu, dbGet_dbUpdate_self, hr, applyChanges,
    hasStatusWrite]

/-- C5 witness: the empty-URL environment at a concrete record. -/
theorem c5_empty_url_fails_witness :
    (processPreviewJob emptyUrlEnv [job1] "j1" "todo app" 1).threw = some noUrlError ∧
    (dbGet (processPreviewJob emptyUrlEnv [job1] "j1" "todo app" 1).store "j1").map
      (fun x => x.status) = some .failed ∧
    (dbGet (processPreviewJob emptyUrlEnv [job1] "j1" "todo app" 1).store "j1").map
      (fun x => x.error) = some (some noUrlError) ∧
    hasStatusWrite .live (processPreviewJob emptyUrlEnv [job1] "j1" "todo app" 1).events
      = false :=
  c5_empty_url_fails emptyUrlEnv [job1] "j1" "todo app" 1 job1 "/tmp/preview_1"
    (some "") rfl rfl (by decide) (by decide)

/-- C6: the queue's default job options give every job `attempts = 3` total
attempts with exponential backoff whose first retry delay is 2000 ms
(2 seconds) and which doubles per retry; failed entries are retained
(`removeOnFail = false`) and completed entries are removed
(`removeOnComplete = true`) — for any value of the REDIS_URL variable. -/
theorem c6_retry_config (envRedisUrl : Option String) :
    (redisConfig envRedisUrl).defaultJobOptions.attempts = 3 ∧
    (redisConfig envRedisUrl).defaultJobOptions.backoff.type = "exponential" ∧
    bullBackoffDelay (redisConfig envRedisUrl).defaultJobOptions 0 = 2000 ∧
    (∀ i, bullBackoffDelay (redisConfig envRedisUrl).defaultJobOptions (i + 1) =
      2 * bullBackoffDelay (redisConfig envRedisUrl).defaultJobOptions i) ∧
    (redisConfig envRedisUrl).defaultJobOptions.removeOnFail = false ∧
    (redisConfig envRedisUrl).defaultJobOptions.removeOnComplete = true := by
  refine ⟨rfl, rfl, rfl, fun i => ?_, rfl, rfl⟩
  simp [bullBackoffDelay, redisConfig, pow_succ]
  ring

/-- C7 (counterexample): the live-preview-engine `POST /api/preview` handler
does not reject a submission missing both `prompt` and `userId`: it responds
success, inserts a record (with `userId` defaulted to `anonymous` and a
missing prompt) and enqueues the job — state is created. -/
theorem c7_counterexample :
    (enginePostPreviewHandler [] [] { prompt := none, userId := none } "j1" 0).2.2
      = { httpStatus := 200, success := true, jobId := some "j1" } ∧
    (enginePostPreviewHandler [] [] { prompt := none, userId := none } "j1" 0).1.length
      = 1 ∧
    (enginePostPreviewHandler [] [] { prompt := none, userId := none } "j1" 0).2.1
      = ["j1"] ∧
    (dbGet (enginePostPreviewHandler [] [] { prompt := none, userId := none } "j1" 0).1
      "j1").map (fun r => r.userId) = some (some "anonymous") := by
  decide

/-- C7 (amended): only the orchestrator-api `POST /api/preview` handler
validates the submission: a request whose `prompt` or `userId` is missing or
empty is rejected there with a 400 error and neither the store nor the queue
changes; the live-preview-engine handler performs no such validation and
instead defaults a missing `userId` to the `anonymous` sentinel. -/
theorem c7_validation_before_state (store : Store) (queue : List String)
    (req : PostRequest) (jobId : String) (now : Nat)
    (h : strFalsy req.prompt = true ∨ strFalsy req.userId = true) :
    postPreviewHandler store queue req jobId now =
      (store, queue, { httpStatus := 400, success := false, jobId := none }) := by
  rcases h with h | h <;> simp [postPreviewHandler, h]

/-- C7 witness: a concrete request with a missing prompt is rejected with no
state change. -/
theorem c7_validation_before_state_witness :
    postPreviewHandler [] [] { prompt := none, userId := some "u1" } "j1" 0 =
      ([], [], { httpStatus := 400, success := false, jobId := none }) :=
  c7_validation_before_state [] [] { prompt := none, userId := some "u1" } "j1" 0
    (Or.inl (by decide))

/-- C8 (counterexample): the cancel endpoint does not surface a not-found
condition: on an empty store (no record for the id), `DELETE` responds 200
with `success: true` instead of a 404-equivalent. -/
theorem c8_counterexample :
    dbGet ([] : Store) "nosuch" = none ∧
    (cancelHandler [] [] "nosuch" 0).2.2 = { httpStatus := 200, success := true } := by
  decide

/-- C8 (amended): for a job id with no record, the status endpoint responds
404 with `success: false`, but the cancel endpoint performs no existence
check: it responds 200 `success: true`, its store update being a no-op that
still leaves no record for the id. -/
theorem c8_not_found_handling (store : Store) (queue : List String)
    (jobInQueue : Bool) (counts : JobCounts) (jobId : String) (now : Nat)
    (h : dbGet store jobId = none) :
    (getStatusHandler store jobInQueue counts jobId).httpStatus = 404 ∧
    (getStatusHandler store jobInQueue counts jobId).success = false ∧
    (cancelHandler store queue jobId now).2.2 =
      { httpStatus := 200, success := true } ∧
    dbGet (cancelHandler store queue jobId now).1 jobId = none := by
  refine ⟨?_, ?_, rfl, ?_⟩
  · simp [getStatusHandler, h]
  · simp [getStatusHandler, h]
  · simp [cancelHandler, dbGet_dbUpdate_self, h]

/-- C8 witness: both endpoints at a concrete unknown id. -/
theorem c8_not_found_handling_witness :
    (getStatusHandler [] false { waiting := 0, active := 0 } "nosuch").httpStatus = 404 ∧
    (getStatusHandler [] false { waiting := 0, active := 0 } "nosuch").success = false ∧
    (cancelHandler [] [] "nosuch" 0).2.2 = { httpStatus := 200, success := true } ∧
    dbGet (cancelHandler [] [] "nosuch" 0).1 "nosuch" = none :=
  c8_not_found_handling [] [] false { waiting := 0, active := 0 } "nosuch" 0 rfl

/-- C9: `GET /api/previews/:userId` returns exactly the owner's records —
a permutation of the store's records whose `userId` matches, every returned
record belonging to the owner — ordered by creation time descending: every
adjacent pair satisfies `later.createdAt ≤ earlier.createdAt`. -/
theorem c9_list_by_user (store : Store) (userId : String) :
    (∀ r ∈ listPreviewsHandler store userId, r.userId = some userId) ∧
    (listPreviewsHandler store userId).Perm
      (store.filter (fun r => r.userId == some userId)) ∧
    (listPreviewsHandler store userId).Chain'
      (fun a b => b.createdAt ≤ a.createdAt) := by
  refine ⟨?_, ?_, ?_⟩
  · intro r hr
    have hm : r ∈ store.filter (fun x => x.userId == some userId) := by
      have := List.perm_insertionSort createdDesc
        (store.filter (fun x => x.userId == some userId))
      exact this.mem_iff.mp hr
    have := List.of_mem_filter hm
    simpa [beq_iff_eq] using this
  · exact List.perm_insertionSort _ _
  · have hs := List.sorted_insertionSort createdDesc
      (store.filter (fun x => x.userId == some userId))
    exact List.Pairwise.chain' hs

/-- C10: whenever the token is set and Netlify site creation succeeds,
`deployToNetlify` returns exactly `https://<siteName>.netlify.app`; the
result depends only on `siteName` — the artifact directory is never
consulted, so two calls with the same `siteName` but different artifact
contents and paths return the same URL. -/
theorem c10_deploy_url_ignores_artifact (env : NetlifyEnv)
    (artifact1 artifact2 : String → Option String) (p1 p2 siteName sid : String)
    (ht : strFalsy env.netlifyToken = false) (hs : env.siteCreateResult = .ok sid) :
    deployToNetlify env artifact1 p1 siteName =
      .ok ("https://" ++ siteName ++ ".netlify.app") ∧
    deployToNetlify env artifact2 p2 siteName =
      deployToNetlify env artifact1 p1 siteName := by
  simp [deployToNetlify, ht, hs]

/-- C10 witness: two concrete calls with the same site name and different
artifact maps and paths yield the same URL. -/
theorem c10_deploy_url_ignores_artifact_witness :
    deployToNetlify { netlifyToken := some "tok", siteCreateResult := .ok "site-1" }
      (fun _ => none) "/tmp/a" "j1" = .ok ("https://" ++ "j1" ++ ".netlify.app") ∧
    deployToNetlify { netlifyToken := some "tok", siteCreateResult := .ok "site-1" }
      (fun _ => some "index.html") "/tmp/b" "j1" =
    deployToNetlify { netlifyToken := some "tok", siteCreateResult := .ok "site-1" }
      (fun _ => none) "/tmp/a" "j1" :=
  c10_deploy_url_ignores_artifact
    { netlifyToken := some "tok", siteCreateResult := .ok "site-1" }
    (fun _ => none) (fun _ => some "index.html") "/tmp/a" "/tmp/b" "j1" "site-1"
    (by decide) rfl

end PreviewEngine
